import Mathlib

/-!
Verification of the python-plantsim client library against its design
specification.  The Python modules under src/plantsim are shallowly
embedded: COM values become the inductive `Value`, the external endpoint
is abstracted by the calls a session issues to it (`Call`), and each
method of `PlantSim` becomes a Lean function returning the list of
endpoint calls it performs together with its outcome.
-/

/-- A COM value as passed to and from the endpoint.  `vnone` embeds the
Python value None. -/
inductive Value where
  | vnone
  | vint (n : Int)
  | vstr (s : String)
  | vbool (b : Bool)
deriving DecidableEq, Repr

/-- Python truthiness of a `Value`, as used by conditions such as
`if parameter:` in `execute_simtalk`. -/
def pyTruthy : Value → Bool
  | Value.vnone => false
  | Value.vint n => n != 0
  | Value.vstr s => s != ""
  | Value.vbool b => b

/-- Python truthiness of an optional value (the default None is falsy). -/
def pyTruthyOpt : Option Value → Bool
  | Option.none => false
  | Option.some v => pyTruthy v

/-- Python truthiness of an optional string attribute such as
`self._path_context` (None and the empty string are falsy). -/
def pyTruthyStrOpt : Option String → Bool
  | Option.none => false
  | Option.some s => s != ""

/-- Python string interpolation of an optional string: None formats as
the literal text None. -/
def pyFormatOptStr : Option String → String
  | Option.none => "None"
  | Option.some s => s

/-- One call issued to the external Plant Simulation COM endpoint
(the verb set of the spec, section 6). -/
inductive Call where
  | dispatch (dispatch_string : String)
  | setLicenseType (license_type : String)
  | loadModel (model : Option String)
  | setPathContext (path_context : Option String)
  | setTrustModels (b : Bool)
  | setVisible (b : Bool)
  | setValue (object_name : String) (v : Value)
  | getValue (object_name : String)
  | executeSimTalk (command_string : String) (parameter : Option Value)
  | startSimulation (event_controller : Option String)
  | resetSimulation (event_controller : Option String)
  | quit
deriving DecidableEq, Repr

/-- The errors raised by the library (src/plantsim/exception.py and the
builtin exceptions it uses). -/
inductive PSError where
  | runtimeError (version : String)
  | invalidLicense (license_type : String)
  | commandOrder (command : String) (prerequisite : String)
  | fileNotFound (path : String)
deriving DecidableEq, Repr

/-- The excepinfo element of a COM fault: the 6-tuple
(wcode, source, text, helpFile, helpContext, scode).  Index 5 of this
tuple is the scode field. -/
structure ExcepInfo where
  wcode : Int
  source : String
  text : String
  helpFile : String
  helpContext : Int
  scode : Int
deriving DecidableEq, Repr

/-- The args of a COM fault exception: the 4-tuple
(hresult, message, excepinfo, argErr).  Index 2 of this tuple is the
excepinfo. -/
structure FaultArgs where
  hresult : Int
  message : String
  excepinfo : ExcepInfo
  argErr : Int
deriving DecidableEq, Repr

/-- A Python value as it occurs in the license-fault comparison: either
a plain int (the raw scode extracted from the COM fault args) or a
member of a plain Enum class (identified by class name, member name, and
underlying value).  Error.Code in src/plantsim/error.py subclasses Enum,
not IntEnum, so its members are of the second kind. -/
inductive PyVal where
  | pyint (n : Int)
  | enumMember (cls : String) (member : String) (value : Int)
deriving DecidableEq, Repr

/-- Python equality between such values: two ints compare by value; two
members of a plain Enum compare by identity, that is, they are equal
exactly when they are the same member of the same class; an int never
compares equal to a member of a plain (non-IntEnum) Enum, because
int.__eq__ returns NotImplemented on an Enum member and Enum.__eq__
falls back to identity, yielding False. -/
def pyEq : PyVal → PyVal → Bool
  | PyVal.pyint a, PyVal.pyint b => a == b
  | PyVal.enumMember c1 m1 _, PyVal.enumMember c2 m2 _ => c1 == c2 && m1 == m2
  | _, _ => false

/-- The enum member Error.Code.INVALID_LICENSE from src/plantsim/error.py:
a member of the plain Enum class Error.Code with underlying value
-2147221503. -/
def Error.Code.INVALID_LICENSE : PyVal :=
  PyVal.enumMember "Error.Code" "INVALID_LICENSE" (-2147221503)

/-- Embeds `Error.extract(args)`, which returns args index 2, index 5:
the scode of the excepinfo element of the fault args — a plain Python
int, not an enum member. -/
def Error.extract (args : FaultArgs) : PyVal :=
  PyVal.pyint args.excepinfo.scode

/-- Behaviour of the external endpoint during session setup: whether the
COM dispatch fails, and whether `SetLicenseType` raises a fault (and, if
so, with which args). -/
structure Endpoint where
  dispatchFails : Bool
  licenseFault : Option FaultArgs
deriving DecidableEq, Repr

/-- A batch record (src/plantsim/simulation_data.py, class
SimulationData): input variable names, a parallel list of values, and
output variable names.  The constructor performs no validation. -/
structure SimulationData where
  input_variables : List String
  values : List Value
  output_variables : List String
deriving DecidableEq, Repr

/-- Outcome of one `__next__` step of iterating a `SimulationData`. -/
inductive NextOutcome where
  | item (input_variable : String) (v : Value)
  | stopIteration
  | indexError
deriving DecidableEq, Repr

/-- Embeds `SimulationData.__next__` at a given iteration index: if the
index is below the length of the input-variable list, it returns the
input variable paired with the value at that index, where indexing
`self._values[self._index]` past the end of the value list raises
IndexError; otherwise it raises StopIteration. -/
def SimulationData.next (d : SimulationData) (index : Nat) : NextOutcome :=
  if h : index < d.input_variables.length then
    match d.values.get? index with
    | Option.some v => NextOutcome.item (d.input_variables.get ⟨index, h⟩) v
    | Option.none => NextOutcome.indexError
  else
    NextOutcome.stopIteration

/-- A simulation result (src/plantsim/simulation_data.py, class
SimulationResult). -/
structure SimulationResult where
  output_variables : List String
  values : List Value
deriving DecidableEq, Repr

/-- The session state of class PlantSim (src/plantsim/plantsim.py),
with field names kept from the source. -/
structure PlantSim where
  _dispatch_string : String
  _version : String
  _license_type : String
  _visible : Bool
  _trust_models : Bool
  _path_context : Option String
  _event_controller : Option String
  _model : Option String
deriving DecidableEq, Repr

/-- Embeds `PlantSim.__init__(version, license_type)`: the dispatch
string is the fixed COM identifier, version-suffixed when the version is
not the empty string; all other state starts unset. -/
def PlantSim.make (version : String) (license_type : String) : PlantSim :=
  { _dispatch_string :=
      if version != "" then
        "Tecnomatix.PlantSimulation.RemoteControl" ++ "." ++ version
      else
        "Tecnomatix.PlantSimulation.RemoteControl"
  , _version := version
  , _license_type := license_type
  , _visible := false
  , _trust_models := false
  , _path_context := Option.none
  , _event_controller := Option.none
  , _model := Option.none }

/-- Embeds the method named initialize of class PlantSim.  Returns the
list of endpoint calls made (in order) and the outcome.  The source
dispatches, then calls `SetLicenseType` inside a try block whose except
clause tests `Error.extract(e.args) == Error.Code.INVALID_LICENSE` —
comparing the raw int scode against a member of a plain (non-IntEnum)
Enum, a comparison that is always False in Python — and raises
`InvalidLicenseError` only when that test holds; there is no re-raise,
so any fault is caught and execution continues — and then loads the
model, sets the path context, and finally sets the trust and visible
flags when configured.  The raise branch is kept to mirror the source
text; with Python equality semantics it is unreachable. -/
def PlantSim.initializeSession (ps : PlantSim) (ep : Endpoint) :
    List Call × Except PSError Unit :=
  if ep.dispatchFails then
    ([Call.dispatch ps._dispatch_string],
     Except.error (PSError.runtimeError ps._version))
  else
    let pre := [Call.dispatch ps._dispatch_string,
                Call.setLicenseType ps._license_type]
    let rest :=
      [Call.loadModel ps._model, Call.setPathContext ps._path_context]
        ++ (if ps._trust_models then [Call.setTrustModels true] else [])
        ++ (if ps._visible then [Call.setVisible true] else [])
    match ep.licenseFault with
    | Option.some args =>
      if pyEq (Error.extract args) Error.Code.INVALID_LICENSE then
        (pre, Except.error (PSError.invalidLicense ps._license_type))
      else
        (pre ++ rest, Except.ok ())
    | Option.none => (pre ++ rest, Except.ok ())

/-- Embeds the `model` property setter: raises FileNotFoundError when
the path does not exist on disk (the file system is modelled as the list
of existing paths), otherwise stores the path.  It makes no endpoint
call. -/
def PlantSim.set_model (ps : PlantSim) (fs : List String) (path : String) :
    PlantSim × Except PSError Unit :=
  if path ∈ fs then
    ({ ps with _model := Option.some path }, Except.ok ())
  else
    (ps, Except.error (PSError.fileNotFound path))

/-- Embeds the `path_context` property setter: stores the value. -/
def PlantSim.set_path_context (ps : PlantSim) (value : String) : PlantSim :=
  { ps with _path_context := Option.some value }

/-- Embeds the `event_controller` property setter: raises
CommandOrderError when `self._path_context` is falsy (None or empty),
leaving the state unchanged; otherwise stores the interpolation of the
path context, a dot, and the value. -/
def PlantSim.set_event_controller (ps : PlantSim) (value : String) :
    PlantSim × Except PSError Unit :=
  if pyTruthyStrOpt ps._path_context then
    ({ ps with _event_controller :=
        Option.some (pyFormatOptStr ps._path_context ++ "." ++ value) },
     Except.ok ())
  else
    (ps, Except.error
      (PSError.commandOrder "set_event_controller" "set_path_context"))

/-- Embeds `PlantSim.start_simulation`: forwards directly to the
endpoint with the stored event controller, with no precondition
check. -/
def PlantSim.start_simulation (ps : PlantSim) :
    List Call × Except PSError Unit :=
  ([Call.startSimulation ps._event_controller], Except.ok ())

/-- Embeds `PlantSim.reset_simulation`: forwards directly to the
endpoint with the stored event controller, with no precondition
check. -/
def PlantSim.reset_simulation (ps : PlantSim) :
    List Call × Except PSError Unit :=
  ([Call.resetSimulation ps._event_controller], Except.ok ())

/-- Embeds `PlantSim.execute_simtalk(command_string, parameter,
from_path_context)`: the command is prefixed with the path context and a
dot when `from_path_context` holds, else with a bare dot; the endpoint
is called with the parameter exactly when the parameter is truthy. -/
def PlantSim.execute_simtalk (ps : PlantSim) (command_string : String)
    (parameter : Option Value) (from_path_context : Bool) : Call :=
  let cmd :=
    if from_path_context then
      pyFormatOptStr ps._path_context ++ "." ++ command_string
    else
      "." ++ command_string
  if pyTruthyOpt parameter then
    Call.executeSimTalk cmd parameter
  else
    Call.executeSimTalk cmd Option.none

/-- The parameter bundle built by `run_simulations_in_parallel` for each
batch record (src/plantsim/plantsim.py, lines 180 to 191): the tuple
(trust_models, dispatch_string, version, model, path_context,
event_controller, data, license_type). -/
structure WorkerParams where
  trust_models : Bool
  dispatch_string : String
  version : String
  model_filepath : Option String
  path_context : Option String
  event_controller : Option String
  simulation_data : SimulationData
  license_type : String
deriving DecidableEq, Repr

/-- Embeds the bundle construction of `run_simulations_in_parallel`
from the session fields. -/
def PlantSim.worker_params (ps : PlantSim) (data : SimulationData) :
    WorkerParams :=
  { trust_models := ps._trust_models
  , dispatch_string := ps._dispatch_string
  , version := ps._version
  , model_filepath := ps._model
  , path_context := ps._path_context
  , event_controller := ps._event_controller
  , simulation_data := data
  , license_type := ps._license_type }

/-- Embeds the setup portion of `_run_simulation_worker`
(src/plantsim/_internal.py): dispatch; then `SetTrustModels(True)` when
the trust flag is set; then `SetLicenseType` inside a try block with the
same except clause as the session initialize — the test compares the
raw int scode against the plain-Enum member, which is always False in
Python, and there is no re-raise, so every fault is swallowed; the
raise branch is kept to mirror the source text but is unreachable —
then `LoadModel` and `SetPathContext`.  Returns the endpoint calls
made, in order, with the outcome. -/
def workerInit (p : WorkerParams) (ep : Endpoint) :
    List Call × Except PSError Unit :=
  if ep.dispatchFails then
    ([Call.dispatch p.dispatch_string],
     Except.error (PSError.runtimeError p.version))
  else
    let pre := [Call.dispatch p.dispatch_string]
        ++ (if p.trust_models then [Call.setTrustModels true] else [])
        ++ [Call.setLicenseType p.license_type]
    let rest := [Call.loadModel p.model_filepath,
                 Call.setPathContext p.path_context]
    match ep.licenseFault with
    | Option.some args =>
      if pyEq (Error.extract args) Error.Code.INVALID_LICENSE then
        (pre, Except.error (PSError.invalidLicense p.license_type))
      else
        (pre ++ rest, Except.ok ())
    | Option.none => (pre ++ rest, Except.ok ())

/-- Projects the successful result out of a completed worker future. -/
def okResult : Except PSError SimulationResult → Option SimulationResult
  | Except.ok r => Option.some r
  | Except.error _ => Option.none

/-- Embeds the collection loop of `run_simulations_in_parallel`
(src/plantsim/plantsim.py, lines 193 to 203): the workers finish in some
completion order, given here as the list of their outcomes; for each
completed future, `future.result()` either yields a result, which is
appended to the aggregate, or re-raises the worker exception, which the
coordinator catches and prints, continuing with the rest. -/
def run_simulations_in_parallel
    (completed : List (Except PSError SimulationResult)) :
    List SimulationResult :=
  completed.foldl
    (fun results f =>
      match f with
      | Except.ok r => results ++ [r]
      | Except.error _ => results)
    []

/-- The state of one endpoint-hosted table: its declared extents XDim
and YDim and its cells, addressed 1-based as in the access strings
written by the library. -/
structure TableState where
  xdim : Int
  ydim : Int
  cell : Nat → Nat → Value

/-- The in-process tabular value (src/plantsim/_dataframe.py, class
DataFrame, a pandas DataFrame): a header of column names and the data
rows. -/
structure DataFrame where
  columns : List Value
  data : List (List Value)
deriving DecidableEq, Repr

/-- Cell access `data_frame.iloc[row_idx, col_idx]` on a rectangular
frame with the stated row and column counts. -/
def DataFrame.cellAt (df : DataFrame) (r c : Nat) : Value :=
  (((df.data.get? r).getD []).get? c).getD Value.vnone

/-- Embeds `DataFrame.__init__` reading a table from the endpoint
(src/plantsim/_dataframe.py): queries XDim and YDim; when both are
positive, reads the cell at column address c + 1 and row address r + 1
for every c up to and including XDim and every r up to and including
YDim, takes the first row read as the header and the remaining rows as
data; otherwise constructs the empty frame. -/
def get_table (t : TableState) : DataFrame :=
  if t.ydim > 0 ∧ t.xdim > 0 then
    let rows := (List.range (t.ydim.toNat + 1)).map fun r =>
      (List.range (t.xdim.toNat + 1)).map fun c => t.cell (c + 1) (r + 1)
    { columns := rows.headD [], data := rows.tail }
  else
    { columns := [], data := [] }

/-- Writes one endpoint table cell at 1-based column and row address. -/
def writeCell (t : TableState) (c : Nat) (r : Nat) (v : Value) : TableState :=
  { t with cell := fun c2 r2 =>
      if c2 = c ∧ r2 = r then v else t.cell c2 r2 }

/-- The inner loop of `PlantSim.set_table`: writes row `r` of the frame,
cell by cell, at column addresses 1 to the column count and row address
r + 1. -/
def writeRow (t : TableState) (df : DataFrame) (r : Nat) : TableState :=
  (List.range df.columns.length).foldl
    (fun acc c => writeCell acc (c + 1) (r + 1) (df.cellAt r c)) t

/-- Embeds `PlantSim.set_table` (src/plantsim/plantsim.py, lines 121 to
133): for every 0-based row and column index of the frame, writes the
frame cell at the 1-based endpoint address.  It neither writes the
header row nor touches XDim or YDim. -/
def set_table (t : TableState) (df : DataFrame) : TableState :=
  (List.range df.data.length).foldl (fun acc r => writeRow acc df r) t

/-- A session constructed with no version and the default license. -/
def psBase : PlantSim := PlantSim.make "" "Professional"

/-- A session with the trust-models flag configured. -/
def psTrust : PlantSim := { psBase with _trust_models := true }

/-- A session whose stored model path names a file that no longer exists
on disk. -/
def psModelMissing : PlantSim := { psBase with _model := Option.some "model.spp" }

/-- A session whose path context has been set to Model. -/
def psCtx : PlantSim := psBase.set_path_context "Model"

/-- An endpoint that dispatches successfully and raises no fault. -/
def epOk : Endpoint := { dispatchFails := false, licenseFault := Option.none }

/-- Fault args whose nested scode is the invalid-license code. -/
def faultArgsInvalid : FaultArgs :=
  { hresult := -2147352567
  , message := "COM fault"
  , excepinfo :=
      { wcode := 0, source := "engine", text := "license rejected"
      , helpFile := "", helpContext := 0, scode := -2147221503 }
  , argErr := 0 }

/-- Fault args whose nested scode differs from the invalid-license
code. -/
def faultArgsOther : FaultArgs :=
  { hresult := -2147352567
  , message := "COM fault"
  , excepinfo :=
      { wcode := 0, source := "engine", text := "some other fault"
      , helpFile := "", helpContext := 0, scode := -2147221504 }
  , argErr := 0 }

/-- An endpoint whose SetLicenseType raises the invalid-license fault. -/
def epFaultInvalid : Endpoint :=
  { dispatchFails := false, licenseFault := Option.some faultArgsInvalid }

/-- An endpoint whose SetLicenseType raises a fault with a different
code. -/
def epFaultOther : Endpoint :=
  { dispatchFails := false, licenseFault := Option.some faultArgsOther }

/-- An empty batch record. -/
def d0 : SimulationData :=
  { input_variables := [], values := [], output_variables := [] }

/-- A one-by-one endpoint table whose cells all hold the string z. -/
def t6 : TableState :=
  { xdim := 1, ydim := 1, cell := fun _ _ => Value.vstr "z" }

/-- A one-column, one-row frame with header A and single data value 7. -/
def df6 : DataFrame :=
  { columns := [Value.vstr "A"], data := [[Value.vint 7]] }

/-- A one-by-one endpoint table with distinguishable cells. -/
def t7 : TableState :=
  { xdim := 1, ydim := 1
  , cell := fun c r => Value.vint (Int.ofNat (10 * c + r)) }

/-- An endpoint table with zero declared columns but nonzero rows and
nonempty cell contents. -/
def t7e : TableState :=
  { xdim := 0, ydim := 3, cell := fun _ _ => Value.vint 9 }

theorem writeCell_cell (t : TableState) (c r : Nat) (v : Value) (c2 r2 : Nat) :
    (writeCell t c r v).cell c2 r2
      = if c2 = c ∧ r2 = r then v else t.cell c2 r2 := rfl

theorem foldWrite_cell (f : Nat → Value) (r : Nat) (n : Nat) (t : TableState)
    (c2 r2 : Nat) :
    ((List.range n).foldl
        (fun acc c => writeCell acc (c + 1) (r + 1) (f c)) t).cell c2 r2
      = if r2 = r + 1 ∧ 1 ≤ c2 ∧ c2 ≤ n then f (c2 - 1) else t.cell c2 r2 := by
  induction n generalizing t with
  | zero =>
    simp only [List.range_zero, List.foldl_nil]
    rw [if_neg (by omega)]
  | succ n ih =>
    rw [List.range_succ, List.foldl_append, List.foldl_cons, List.foldl_nil,
        writeCell_cell, ih]
    by_cases h1 : c2 = n + 1 ∧ r2 = r + 1
    · obtain ⟨hc, hr⟩ := h1
      subst hc; subst hr
      simp
    · rw [if_neg h1]
      split_ifs <;> first | rfl | omega

theorem writeRow_cell (t : TableState) (df : DataFrame) (r : Nat) (c2 r2 : Nat) :
    (writeRow t df r).cell c2 r2
      = if r2 = r + 1 ∧ 1 ≤ c2 ∧ c2 ≤ df.columns.length
        then df.cellAt r (c2 - 1) else t.cell c2 r2 :=
  foldWrite_cell (fun c => df.cellAt r c) r df.columns.length t c2 r2

theorem foldRows_cell (df : DataFrame) (m : Nat) (t : TableState) (c2 r2 : Nat) :
    ((List.range m).foldl (fun acc r => writeRow acc df r) t).cell c2 r2
      = if 1 ≤ r2 ∧ r2 ≤ m ∧ 1 ≤ c2 ∧ c2 ≤ df.columns.length
        then df.cellAt (r2 - 1) (c2 - 1) else t.cell c2 r2 := by
  induction m generalizing t with
  | zero =>
    simp only [List.range_zero, List.foldl_nil]
    rw [if_neg (by omega)]
  | succ m ih =>
    rw [List.range_succ, List.foldl_append, List.foldl_cons, List.foldl_nil,
        writeRow_cell, ih]
    by_cases h1 : r2 = m + 1 ∧ 1 ≤ c2 ∧ c2 ≤ df.columns.length
    · obtain ⟨hr, hc1, hc2⟩ := h1
      subst hr
      simp [hc1, hc2]
    · rw [if_neg h1]
      split_ifs <;> first | rfl | omega

theorem foldl_cell_xdim {α : Type} (g : TableState → α → TableState)
    (h : ∀ t a, (g t a).xdim = t.xdim) (l : List α) (t : TableState) :
    (l.foldl g t).xdim = t.xdim := by
  induction l generalizing t with
  | nil => rfl
  | cons a l ih => rw [List.foldl_cons, ih, h]

theorem foldl_cell_ydim {α : Type} (g : TableState → α → TableState)
    (h : ∀ t a, (g t a).ydim = t.ydim) (l : List α) (t : TableState) :
    (l.foldl g t).ydim = t.ydim := by
  induction l generalizing t with
  | nil => rfl
  | cons a l ih => rw [List.foldl_cons, ih, h]

theorem writeRow_xdim (t : TableState) (df : DataFrame) (r : Nat) :
    (writeRow t df r).xdim = t.xdim := by
  unfold writeRow
  exact foldl_cell_xdim
    (fun acc c => writeCell acc (c + 1) (r + 1) (df.cellAt r c))
    (fun _ _ => rfl) (List.range df.columns.length) t

theorem writeRow_ydim (t : TableState) (df : DataFrame) (r : Nat) :
    (writeRow t df r).ydim = t.ydim := by
  unfold writeRow
  exact foldl_cell_ydim
    (fun acc c => writeCell acc (c + 1) (r + 1) (df.cellAt r c))
    (fun _ _ => rfl) (List.range df.columns.length) t

theorem foldl_collect (completed : List (Except PSError SimulationResult))
    (acc : List SimulationResult) :
    completed.foldl
      (fun results f =>
        match f with
        | Except.ok r => results ++ [r]
        | Except.error _ => results) acc
    = acc ++ completed.filterMap okResult := by
  induction completed generalizing acc with
  | nil => simp
  | cons f rest ih =>
    cases f with
    | ok r => simp [List.foldl_cons, ih, okResult]
    | error e => simp [List.foldl_cons, ih, okResult]

theorem pyEq_extract_code_false (args : FaultArgs) :
    pyEq (Error.extract args) Error.Code.INVALID_LICENSE = false := rfl

/-- C3: for every list of batch records whose workers complete, in any
completion order, with the given outcomes, the batch call returns
normally (it is a total function), the aggregate is exactly the list of
results of the workers that completed without error, in completion
order, and a result belongs to the aggregate exactly when some worker
completed successfully with it: a failing record contributes nothing and
its error is not re-raised. -/
theorem run_parallel_collects_exactly_successes
    (completed : List (Except PSError SimulationResult)) :
    run_simulations_in_parallel completed = completed.filterMap okResult ∧
    ∀ r : SimulationResult,
      (r ∈ run_simulations_in_parallel completed ↔ Except.ok r ∈ completed) := by
  have key : run_simulations_in_parallel completed
      = completed.filterMap okResult := by
    unfold run_simulations_in_parallel
    rw [foldl_collect]
    simp
  refine ⟨key, ?_⟩
  intro r
  rw [key, List.mem_filterMap]
  constructor
  · rintro ⟨f, hf, hok⟩
    cases f with
    | ok a =>
      cases hok_eq : okResult (Except.ok a) with
      | none => rw [hok_eq] at hok; cases hok
      | some b =>
        have : a = r := by
          simp [okResult] at hok
          exact hok
        subst this
        exact hf
    | error e => simp [okResult] at hok
  · intro h
    exact ⟨Except.ok r, h, rfl⟩

/-- C6 (amended): the single write operation set_table writes the frame
cell at 0-based row r and column c to the endpoint cell at 1-based
address column c + 1, row r + 1, for every index pair inside the frame,
and leaves every other cell and both declared extents XDim and YDim
unchanged: it writes in place, never pre-sets the dimensions, and never
writes the header row, so it is a write-in-place and no distinct
resize-and-write variant exists. -/
theorem set_table_writes_in_place (t : TableState) (df : DataFrame)
    (c r : Nat) :
    (set_table t df).xdim = t.xdim ∧
    (set_table t df).ydim = t.ydim ∧
    (set_table t df).cell c r
      = if 1 ≤ r ∧ r ≤ df.data.length ∧ 1 ≤ c ∧ c ≤ df.columns.length
        then df.cellAt (r - 1) (c - 1) else t.cell c r := by
  unfold set_table
  refine ⟨?_, ?_, ?_⟩
  · exact foldl_cell_xdim (fun acc r => writeRow acc df r)
      (fun t r => writeRow_xdim t df r) (List.range df.data.length) t
  · exact foldl_cell_ydim (fun acc r => writeRow acc df r)
      (fun t r => writeRow_ydim t df r) (List.range df.data.length) t
  · exact foldRows_cell df df.data.length t c r

/-- C6 counterexample: over a one-by-one endpoint table, writing the
one-by-one frame with header A and data value 7 via set_table and
reading the table back does not return the original header: the claimed
resize-and-write round trip fails on the only write operation the code
provides. -/
theorem set_table_roundtrip_fails :
    (get_table (set_table t6 df6)).columns ≠ [Value.vstr "A"] ∧
    get_table (set_table t6 df6) ≠ df6 := by
  refine ⟨by decide, by decide⟩

/-- C7: reading an endpoint table whose declared extents XDim and YDim
are both positive reads XDim + 1 cells per row and YDim + 1 rows,
inclusive of the extent values (the cell at 1-based address
column c + 1, row r + 1 for every loop index c up to and including XDim
and r up to and including YDim); the first row read becomes the header
and the remaining YDim rows become the data rows; when either extent is
zero or less, the empty frame is returned regardless of cell
contents. -/
theorem get_table_reads_inclusive_extents (t : TableState) :
    (0 < t.xdim → 0 < t.ydim →
      (get_table t).columns =
        (List.range (t.xdim.toNat + 1)).map (fun c => t.cell (c + 1) 1) ∧
      (get_table t).data =
        (List.range t.ydim.toNat).map (fun r =>
          (List.range (t.xdim.toNat + 1)).map (fun c => t.cell (c + 1) (r + 2))) ∧
      (get_table t).data.length = t.ydim.toNat)
    ∧ ((t.xdim ≤ 0 ∨ t.ydim ≤ 0) →
      get_table t = { columns := [], data := [] }) := by
  constructor
  · intro hx hy
    unfold get_table
    rw [if_pos ⟨hy, hx⟩]
    simp only [List.range_succ_eq_map t.ydim.toNat, List.map_cons, List.map_map,
      List.headD_cons, List.tail_cons]
    refine ⟨by simp, ?_, by simp⟩
    apply List.map_congr_left
    intro r hr
    simp [Function.comp]
  · intro h
    unfold get_table
    rw [if_neg]
    rintro ⟨h1, h2⟩
    rcases h with h | h <;> omega

/-- C7 witness: on a concrete one-by-one table the header is the two
cells of the first row, and on a concrete table with XDim zero the
result is the empty frame. -/
theorem get_table_reads_inclusive_extents_witness :
    ((get_table t7).columns =
      (List.range (t7.xdim.toNat + 1)).map (fun c => t7.cell (c + 1) 1)) ∧
    get_table t7e = { columns := [], data := [] } := by
  have h1 := (get_table_reads_inclusive_extents t7).1 (by decide) (by decide)
  have h2 := (get_table_reads_inclusive_extents t7e).2 (Or.inl (by decide))
  exact ⟨h1.1, h2⟩

/-- C1 (amended): no license-setting fault is ever translated or
propagated: the except clause compares the raw int scode extracted from
the fault args (args index 2, index 5) with a member of a plain
non-IntEnum Enum, a comparison that is always False in Python, and it
contains no re-raise; hence when SetLicenseType raises any fault —
whatever its nested code, including the invalid-license value itself —
the session never raises the invalid-license error, the fault is
silently swallowed, and initialization continues with the load-model and
path-context calls, returning success. -/
theorem initialize_license_fault_always_swallowed (ps : PlantSim)
    (ep : Endpoint) (args : FaultArgs) (hd : ep.dispatchFails = false)
    (hf : ep.licenseFault = Option.some args) :
    (PlantSim.initializeSession ps ep).2 = Except.ok () ∧
    (PlantSim.initializeSession ps ep).1 =
      [Call.dispatch ps._dispatch_string,
       Call.setLicenseType ps._license_type,
       Call.loadModel ps._model, Call.setPathContext ps._path_context]
        ++ (if ps._trust_models then [Call.setTrustModels true] else [])
        ++ (if ps._visible then [Call.setVisible true] else []) ∧
    (PlantSim.initializeSession ps ep).2
      ≠ Except.error (PSError.invalidLicense ps._license_type) := by
  unfold PlantSim.initializeSession
  rw [hd, hf]
  simp [pyEq_extract_code_false]

/-- C1 witness: a concrete session against an endpoint whose license
fault carries exactly the scode -2147221503 still initializes
successfully. -/
theorem initialize_license_fault_always_swallowed_witness :
    (PlantSim.initializeSession psBase epFaultInvalid).2 = Except.ok () :=
  (initialize_license_fault_always_swallowed psBase epFaultInvalid
    faultArgsInvalid rfl rfl).1

/-- C1 counterexample: an endpoint fault whose nested scode equals the
underlying value of the invalid-license enum member, -2147221503, is not
translated into an invalid-license error carrying the requested kind:
because the int scode never compares equal to the plain Enum member,
initialize swallows the fault, returns success, and issues the remaining
endpoint calls (four in total); a fault with any other code, here
-2147221504, likewise does not propagate to the caller. -/
theorem initialize_invalid_license_code_not_translated :
    faultArgsInvalid.excepinfo.scode = -2147221503 ∧
    (PlantSim.initializeSession psBase epFaultInvalid).2 = Except.ok () ∧
    (PlantSim.initializeSession psBase epFaultInvalid).1 =
      [Call.dispatch "Tecnomatix.PlantSimulation.RemoteControl",
       Call.setLicenseType "Professional",
       Call.loadModel Option.none, Call.setPathContext Option.none] ∧
    (PlantSim.initializeSession psBase epFaultOther).2 = Except.ok () :=
  ⟨rfl, rfl, by decide, rfl⟩

/-- C2 counterexample: on a freshly constructed session, whose event
controller is unset, start_simulation and reset_simulation do not fail
with a command-order error: each succeeds and issues one endpoint call
carrying the unset controller. -/
theorem start_reset_no_order_check :
    psBase._event_controller = Option.none ∧
    psBase.start_simulation =
      ([Call.startSimulation Option.none], Except.ok ()) ∧
    psBase.reset_simulation =
      ([Call.resetSimulation Option.none], Except.ok ()) :=
  ⟨rfl, rfl, rfl⟩

/-- C2 (amended): start_simulation and reset_simulation perform no
command-order check: on every session they succeed and forward exactly
one endpoint call carrying the stored controller identifier, whether or
not it is set; in particular, after a successful set_event_controller
with path context ctx and name n, they forward the identifier ctx.n. -/
theorem start_reset_forward_controller (ps : PlantSim) (ctx n : String)
    (hc : ps._path_context = Option.some ctx) (hne : ctx ≠ "") :
    ps.start_simulation =
      ([Call.startSimulation ps._event_controller], Except.ok ()) ∧
    ps.reset_simulation =
      ([Call.resetSimulation ps._event_controller], Except.ok ()) ∧
    ((ps.set_event_controller n).1).start_simulation
      = ([Call.startSimulation (Option.some (ctx ++ "." ++ n))],
         Except.ok ()) ∧
    ((ps.set_event_controller n).1).reset_simulation
      = ([Call.resetSimulation (Option.some (ctx ++ "." ++ n))],
         Except.ok ()) := by
  have hset : (ps.set_event_controller n).1._event_controller
      = Option.some (ctx ++ "." ++ n) := by
    unfold PlantSim.set_event_controller
    rw [hc]
    simp [pyTruthyStrOpt, pyFormatOptStr, hne]
  refine ⟨rfl, rfl, ?_, ?_⟩
  · unfold PlantSim.start_simulation
    rw [hset]
  · unfold PlantSim.reset_simulation
    rw [hset]

/-- C2 witness: a concrete session with path context Model and event
controller set through set_event_controller forwards Model.EC on start
and reset. -/
theorem start_reset_forward_controller_witness :
    ((psCtx.set_event_controller "EC").1).start_simulation
      = ([Call.startSimulation (Option.some ("Model" ++ "." ++ "EC"))],
         Except.ok ()) :=
  (start_reset_forward_controller psCtx "Model" "EC" rfl
    (by decide)).2.2.1

/-- C4: set_event_controller fails with the command-order error naming
set_path_context as the prerequisite and returns the session unchanged
(in particular the stored controller is unchanged) whenever the path
context is unset or empty; with a non-empty path context ctx and name n
it succeeds and stores the controller identifier ctx.n. -/
theorem set_event_controller_spec (ps : PlantSim) (n : String) :
    ((ps._path_context = Option.none ∨ ps._path_context = Option.some "") →
      ps.set_event_controller n =
        (ps, Except.error
          (PSError.commandOrder "set_event_controller" "set_path_context")))
    ∧ (∀ ctx, ps._path_context = Option.some ctx → ctx ≠ "" →
      ps.set_event_controller n =
        ({ ps with _event_controller := Option.some (ctx ++ "." ++ n) },
         Except.ok ())) := by
  constructor
  · rintro (h | h) <;>
      (unfold PlantSim.set_event_controller; rw [h]; simp [pyTruthyStrOpt])
  · intro ctx hc hne
    unfold PlantSim.set_event_controller
    rw [hc]
    simp [pyTruthyStrOpt, pyFormatOptStr, hne]

/-- C4 witness: on a fresh session the call fails with the command-order
error and leaves the state unchanged; after setting path context Model
it succeeds and stores Model.EventController. -/
theorem set_event_controller_spec_witness :
    psBase.set_event_controller "EventController" =
      (psBase, Except.error
        (PSError.commandOrder "set_event_controller" "set_path_context")) ∧
    psCtx.set_event_controller "EventController" =
      ({ psCtx with
          _event_controller := Option.some ("Model" ++ "." ++ "EventController") },
       Except.ok ()) :=
  ⟨(set_event_controller_spec psBase "EventController").1 (Or.inl rfl),
   (set_event_controller_spec psCtx "EventController").2 "Model" rfl
     (by decide)⟩

/-- C5 (amended): the local existence check lives in the model property
setter, not in initialize: assigning a model path that does not exist on
disk fails immediately with a model-not-found (FileNotFoundError) error
and leaves the session unchanged, with no endpoint involved; assigning
an existing path stores it; and initialize itself performs no local
existence check, so it can never fail with a model-not-found error. -/
theorem model_setter_checks_existence (ps : PlantSim) (fs : List String)
    (path : String) (ep : Endpoint) :
    (path ∉ fs →
      ps.set_model fs path = (ps, Except.error (PSError.fileNotFound path)))
    ∧ (path ∈ fs →
      ps.set_model fs path =
        ({ ps with _model := Option.some path }, Except.ok ()))
    ∧ (PlantSim.initializeSession ps ep).2 ≠ Except.error (PSError.fileNotFound path) := by
  refine ⟨?_, ?_, ?_⟩
  · intro h
    unfold PlantSim.set_model
    rw [if_neg h]
  · intro h
    unfold PlantSim.set_model
    rw [if_pos h]
  · unfold PlantSim.initializeSession
    cases hd : ep.dispatchFails with
    | true => simp
    | false =>
      simp only [Bool.false_eq_true, if_false]
      cases hf : ep.licenseFault with
      | none => simp
      | some args => simp [pyEq_extract_code_false]

/-- C5 witness: concrete instances of the setter both rejecting a
missing path and storing an existing one, and of initialize never
producing a model-not-found error. -/
theorem model_setter_checks_existence_witness :
    psBase.set_model [] "model.spp" =
      (psBase, Except.error (PSError.fileNotFound "model.spp")) ∧
    psBase.set_model ["model.spp"] "model.spp" =
      ({ psBase with _model := Option.some "model.spp" }, Except.ok ()) := by
  have h := model_setter_checks_existence psBase [] "model.spp" epOk
  have h2 := model_setter_checks_existence psBase ["model.spp"] "model.spp" epOk
  exact ⟨h.1 (by simp), h2.2.1 (by simp)⟩

/-- C5 counterexample: a session whose stored model path exists nowhere
on disk (the file system is empty, so the stored path model.spp does not
exist) still initializes successfully, issuing four endpoint calls and
raising no model-not-found error: initialize makes no local existence
check before calling the endpoint. -/
theorem initialize_no_local_model_check :
    psModelMissing._model = Option.some "model.spp" ∧
    "model.spp" ∉ ([] : List String) ∧
    (PlantSim.initializeSession psModelMissing epOk).2 = Except.ok () ∧
    (PlantSim.initializeSession psModelMissing epOk).1 =
      [Call.dispatch "Tecnomatix.PlantSimulation.RemoteControl",
       Call.setLicenseType "Professional",
       Call.loadModel (Option.some "model.spp"),
       Call.setPathContext Option.none] :=
  ⟨rfl, by simp, rfl, by decide⟩

/-- C8 (amended): the parallel worker performs the same endpoint setup
sequence as Session initialize exactly when the session has neither the
trust flag nor visibility configured (dispatch, set license, load model,
set path context, with identical fault handling); when the trust flag is
configured the two sequences differ: the worker issues the
set-trust-models call immediately after dispatch while initialize issues
it after the path context, and initialize alone may additionally issue a
set-visible call, which the worker never does. -/
theorem worker_init_matches_initialize (ps : PlantSim) (d : SimulationData)
    (ep : Endpoint) (ht : ps._trust_models = false)
    (hv : ps._visible = false) :
    workerInit (ps.worker_params d) ep = PlantSim.initializeSession ps ep := by
  unfold workerInit PlantSim.initializeSession PlantSim.worker_params
  cases hd : ep.dispatchFails with
  | true => simp
  | false =>
    simp only [Bool.false_eq_true, if_false, ht, hv]
    cases hf : ep.licenseFault with
    | none => simp
    | some args => simp [pyEq_extract_code_false]

/-- C8 witness: for a concrete unconfigured session the worker setup
trace coincides with the initialize trace. -/
theorem worker_init_matches_initialize_witness :
    workerInit (psBase.worker_params d0) epOk = PlantSim.initializeSession psBase epOk :=
  worker_init_matches_initialize psBase d0 epOk rfl rfl

/-- C8 counterexample: with the trust flag configured, the worker and
the session issue the same five endpoint calls in different orders, so
the two setup sequences are not equal. -/
theorem worker_init_order_differs :
    (workerInit (psTrust.worker_params d0) epOk).1 =
      [Call.dispatch "Tecnomatix.PlantSimulation.RemoteControl",
       Call.setTrustModels true, Call.setLicenseType "Professional",
       Call.loadModel Option.none, Call.setPathContext Option.none] ∧
    (PlantSim.initializeSession psTrust epOk).1 =
      [Call.dispatch "Tecnomatix.PlantSimulation.RemoteControl",
       Call.setLicenseType "Professional", Call.loadModel Option.none,
       Call.setPathContext Option.none, Call.setTrustModels true] ∧
    (workerInit (psTrust.worker_params d0) epOk).1
      ≠ (PlantSim.initializeSession psTrust epOk).1 := by
  refine ⟨by decide, by decide, by decide⟩

/-- C9 (amended): execute_simtalk forwards the command together with the
parameter exactly when the supplied parameter is truthy in the Python
sense; a supplied falsy parameter (such as the integer zero, the empty
string, False, or None) is dropped and the command is forwarded alone,
with the command prefixed by the path context and a dot, or by a bare
dot, according to the from-path-context flag. -/
theorem execute_simtalk_param_truthiness (ps : PlantSim) (c : String)
    (fpc : Bool) (v : Value) :
    (pyTruthy v = true →
      ps.execute_simtalk c (Option.some v) fpc =
        Call.executeSimTalk
          (if fpc then pyFormatOptStr ps._path_context ++ "." ++ c
           else "." ++ c)
          (Option.some v))
    ∧ (pyTruthy v = false →
      ps.execute_simtalk c (Option.some v) fpc =
        Call.executeSimTalk
          (if fpc then pyFormatOptStr ps._path_context ++ "." ++ c
           else "." ++ c)
          Option.none)
    ∧ ps.execute_simtalk c Option.none fpc =
        Call.executeSimTalk
          (if fpc then pyFormatOptStr ps._path_context ++ "." ++ c
           else "." ++ c)
          Option.none := by
  refine ⟨?_, ?_, ?_⟩
  · intro h
    unfold PlantSim.execute_simtalk
    simp [pyTruthyOpt, h]
  · intro h
    unfold PlantSim.execute_simtalk
    simp [pyTruthyOpt, h]
  · unfold PlantSim.execute_simtalk
    simp [pyTruthyOpt]

/-- C9 witness: with path context Model, a truthy parameter 3.0 is
forwarded together with the command Model.foo. -/
theorem execute_simtalk_param_truthiness_witness :
    psCtx.execute_simtalk "foo" (Option.some (Value.vint 3)) true =
      Call.executeSimTalk
        (if true then pyFormatOptStr psCtx._path_context ++ "." ++ "foo"
         else "." ++ "foo")
        (Option.some (Value.vint 3)) :=
  (execute_simtalk_param_truthiness psCtx "foo" true (Value.vint 3)).1 rfl

/-- C9 counterexample: the integer parameter zero is supplied by the
caller, yet the command Model.foo is forwarded without any parameter,
because the code tests Python truthiness of the parameter rather than
whether one was supplied. -/
theorem execute_simtalk_drops_falsy_param :
    psCtx.execute_simtalk "foo" (Option.some (Value.vint 0)) true =
      Call.executeSimTalk "Model.foo" Option.none ∧
    Call.executeSimTalk "Model.foo" Option.none ≠
      Call.executeSimTalk "Model.foo" (Option.some (Value.vint 0)) := by
  refine ⟨by decide, by decide⟩

/-- C10: constructing a batch record whose value list is shorter than
its input-variable list succeeds with the given fields, with no
validation; iterating it yields the input-variable and value pairs in
order while values remain, and at the first index with a missing value
(the length of the value list, still within the input-variable list) it
raises IndexError rather than StopIteration or a dedicated
length-mismatch error. -/
theorem simulation_data_short_values_index_error
    (ivs : List String) (vs : List Value) (ovs : List String)
    (h : vs.length < ivs.length) :
    (({ input_variables := ivs, values := vs, output_variables := ovs }
        : SimulationData).input_variables = ivs ∧
     ({ input_variables := ivs, values := vs, output_variables := ovs }
        : SimulationData).values = vs)
    ∧ (∀ i, ∀ hi : i < vs.length,
      SimulationData.next
          { input_variables := ivs, values := vs, output_variables := ovs } i
        = NextOutcome.item (ivs.get ⟨i, Nat.lt_trans hi h⟩) (vs.get ⟨i, hi⟩))
    ∧ SimulationData.next
        { input_variables := ivs, values := vs, output_variables := ovs }
        vs.length
      = NextOutcome.indexError := by
  refine ⟨⟨rfl, rfl⟩, ?_, ?_⟩
  · intro i hi
    unfold SimulationData.next
    rw [dif_pos (Nat.lt_trans hi h)]
    rw [List.get?_eq_get hi]
  · unfold SimulationData.next
    rw [dif_pos h]
    have hnone : vs.get? vs.length = Option.none := by
      rw [List.get?_eq_none]
    rw [hnone]

/-- C10 witness: the record with inputs a, b but a single value yields
the pair for a at index zero and raises IndexError at index one. -/
theorem simulation_data_short_values_index_error_witness :
    SimulationData.next
        { input_variables := ["a", "b"], values := [Value.vint 3]
        , output_variables := [] } 0
      = NextOutcome.item "a" (Value.vint 3) ∧
    SimulationData.next
        { input_variables := ["a", "b"], values := [Value.vint 3]
        , output_variables := [] } 1
      = NextOutcome.indexError := by
  have h := simulation_data_short_values_index_error
    ["a", "b"] [Value.vint 3] [] (by decide)
  exact ⟨h.2.1 0 (by decide), h.2.2⟩
